import Mathlib

/-!
# Verification of the vendroBe spot discovery and rating aggregation engine

Shallow embedding of the core subsystem of the `vendroBe` backend:

* `SpotService` (src/src/services/spotService.ts and the revision in
  src/unnamed/part_006): review submission (`addSpotReview`), spot rating
  recomputation (`updateSpotRatings`, `updateSpotAggregatedRatings`,
  `calculateAverage`) and the filter engine (`getSpotsFiltered`);
* `UserProfileService` (src/src/services/userProfileService.ts): trust
  scoring (`calculateTrustScore`) and the badge awarding system
  (`checkAndAwardBadges`, `awardBadge`);
* the HTTP route layer for spots (src/src/routes/spots.ts): the
  `GET /filtered` handler and the `POST /:id/reviews` handler.

JavaScript numbers are modelled as `ℚ` (all arithmetic in the engine stays
well inside the exactly-representable range of IEEE doubles), machine
integers as `ℕ`/`ℤ`, JavaScript `undefined` as `Option`, thrown errors
(`createError(message, status)`) as `Except SvcError`.  The persistent store
is passed explicitly: a `SpotStore` holds the spot and review tables, the
profile repository is a function from user id to `Option UserProfile`, and
an operation that mutates the store returns the new store.
-/

/-- `enums.ts`: `TransportMode`. -/
inductive TransportMode where
  | hitchhiking
  | cycling
  | van_life
  | walking
deriving DecidableEq, Repr

/-- `enums.ts`: `SpotType`. -/
inductive SpotType where
  | highway_entrance
  | rest_stop
  | gas_station
  | bridge
  | roundabout
  | parking_lot
  | other
deriving DecidableEq, Repr

/-- `UserProfile.ts`: `SafetyPriority`. -/
inductive SafetyPriority where
  | high
  | medium
  | low
deriving DecidableEq, Repr

/-- `createError(message, statusCode)` from `middleware/errorHandler`. -/
structure SvcError where
  message : String
  status : Nat
deriving DecidableEq, Repr

/-- JavaScript `Math.round`: rounds half toward positive infinity,
i.e. `Math.round x = ⌊x + 1/2⌋` for every finite `x`. -/
def jsRound (x : ℚ) : ℤ := ⌊x + 1 / 2⌋

/-- Rounding to one decimal place, `Math.round(x * 10) / 10` as in
`SpotService.calculateAverage`.  For the non-negative values arising here
this coincides with the rounding the Postgres `numeric(2,1)` columns
(`Spot.ts`: `safety_rating`, `overall_rating` are `decimal` with
`precision: 2, scale: 1`) apply to stored values. -/
def round1 (x : ℚ) : ℚ := (jsRound (x * 10) : ℚ) / 10

/-- `SpotService.calculateAverage`: `0` on an empty list, otherwise the mean
rounded to one decimal place. -/
def calculateAverage (numbers : List ℚ) : ℚ :=
  if numbers = [] then 0
  else round1 (numbers.sum / (numbers.length : ℚ))

/-- SQL `AVG` over a review column followed by `parseFloat(...) || 0`
(`SpotService.updateSpotRatings`): the exact mean, and `0` when the review
set is empty (`AVG` of no rows is `NULL`, `parseFloat(null)` is `NaN`,
`NaN || 0` is `0`). -/
def sqlAvg (numbers : List ℚ) : ℚ :=
  if numbers = [] then 0
  else numbers.sum / (numbers.length : ℚ)

/-- `UserProfile.ts` (the complete revision): the profile fields consumed by
the preference resolver, the trust scorer and the badge system.
`created_at` is a JavaScript timestamp in milliseconds. -/
structure UserProfile where
  travel_modes : List TransportMode
  primary_mode : TransportMode
  safety_priority : SafetyPriority
  email_verified : Bool
  phone_verified : Bool
  social_connected : Bool
  community_vouches : Nat
  total_reviews : Nat
  helpful_reviews : Nat
  reviewer_rating : ℚ
  spots_added : Nat
  verified_spots : Nat
  languages : List String
  countries_visited : List String
  show_all_spots : Bool
  created_at : ℚ
deriving DecidableEq, Repr

/-- `Math.floor((Date.now() - profile.created_at.getTime()) / (1000*60*60*24))`
from `UserProfileService.calculateTrustScore` and the badge checks. -/
def membershipDays (p : UserProfile) (now : ℚ) : ℤ :=
  ⌊(now - p.created_at) / 86400000⌋

/-- `UserProfileService.calculateTrustScore`, the scoring body applied to a
profile that was found (the service returns `0` when no profile exists; see
`calculateTrustScoreFor`).  `now` is `Date.now()` in milliseconds. -/
def calculateTrustScore (p : UserProfile) (now : ℚ) : ℤ :=
  let base : ℚ :=
    (if p.email_verified then 15 else 0) +
    (if p.phone_verified then 15 else 0) +
    (if p.social_connected then 10 else 0)
  let reviewScore : ℚ := min ((p.helpful_reviews : ℚ) * 2) 20
  let contributionScore : ℚ := min ((p.spots_added : ℚ) * 3) 15
  let qualityScore : ℚ := min (p.reviewer_rating * 2) 10
  let timeScore : ℚ := min ((membershipDays p now : ℚ) / 30) 10
  let vouchScore : ℚ := min ((p.community_vouches : ℚ) * 2) 10
  min (jsRound (base + (reviewScore + contributionScore + qualityScore) +
      (timeScore + vouchScore))) 100

/-- `UserProfileService.calculateTrustScore` including the repository lookup:
a user without a profile scores `0`. -/
def calculateTrustScoreFor (profiles : Nat → Option UserProfile) (userId : Nat)
    (now : ℚ) : ℤ :=
  match profiles userId with
  | none => 0
  | some p => calculateTrustScore p now

lemma jsRound_le_jsRound {x y : ℚ} (h : x ≤ y) : jsRound x ≤ jsRound y :=
  Int.floor_le_floor (by linarith)

lemma jsRound_hundred : jsRound 100 = 100 := by
  unfold jsRound
  norm_num [Int.floor_eq_iff]

lemma min_jsRound_hundred (s : ℚ) :
    min (jsRound s) 100 = jsRound (min 100 s) := by
  rcases le_total s 100 with h | h
  · rw [min_eq_right h, min_eq_left]
    calc jsRound s ≤ jsRound 100 := jsRound_le_jsRound h
    _ = 100 := jsRound_hundred
  · rw [min_eq_left h, min_eq_right, jsRound_hundred]
    calc (100 : ℤ) = jsRound 100 := jsRound_hundred.symm
    _ ≤ jsRound s := jsRound_le_jsRound h

lemma jsRound_nonneg {x : ℚ} (h : 0 ≤ x) : 0 ≤ jsRound x := by
  unfold jsRound
  positivity

/-- C6: for every profile, `calculateTrustScore` returns an integer in
`[0, 100]` equal to `round (min 100 (V + C + T + W))` with
`V = 15·email + 15·phone + 10·social`,
`C = min(helpful_reviews·2, 20) + min(spots_added·3, 15) + min(reviewer_rating·2, 10)`,
`T = min(membership_days / 30, 10)` and `W = min(community_vouches·2, 10)`,
under the real-system invariants that the stored reviewer rating is
non-negative and the membership timestamp is not in the future. -/
theorem calculateTrustScore_spec (p : UserProfile) (now : ℚ)
    (hr : 0 ≤ p.reviewer_rating) (hc : p.created_at ≤ now) :
    calculateTrustScore p now =
      jsRound (min 100
        (((if p.email_verified then 15 else 0) +
          (if p.phone_verified then 15 else 0) +
          (if p.social_connected then 10 else 0)) +
         (min ((p.helpful_reviews : ℚ) * 2) 20 +
          min ((p.spots_added : ℚ) * 3) 15 +
          min (p.reviewer_rating * 2) 10) +
         min ((membershipDays p now : ℚ) / 30) 10 +
         min ((p.community_vouches : ℚ) * 2) 10)) ∧
    0 ≤ calculateTrustScore p now ∧ calculateTrustScore p now ≤ 100 := by
  have hdays : (0 : ℚ) ≤ ((membershipDays p now : ℚ)) := by
    have : (0 : ℤ) ≤ membershipDays p now := by
      apply Int.floor_nonneg.mpr
      have h86 : (0 : ℚ) < 86400000 := by norm_num
      apply div_nonneg (by linarith) (le_of_lt h86)
    exact_mod_cast this
  have hscore : (0 : ℚ) ≤
      ((if p.email_verified then 15 else 0) +
        (if p.phone_verified then 15 else 0) +
        (if p.social_connected then 10 else 0)) +
      (min ((p.helpful_reviews : ℚ) * 2) 20 +
        min ((p.spots_added : ℚ) * 3) 15 +
        min (p.reviewer_rating * 2) 10) +
      (min ((membershipDays p now : ℚ) / 30) 10 +
        min ((p.community_vouches : ℚ) * 2) 10) := by
    have h1 : (0 : ℚ) ≤ (if p.email_verified then (15 : ℚ) else 0) := by
      split <;> norm_num
    have h2 : (0 : ℚ) ≤ (if p.phone_verified then (15 : ℚ) else 0) := by
      split <;> norm_num
    have h3 : (0 : ℚ) ≤ (if p.social_connected then (10 : ℚ) else 0) := by
      split <;> norm_num
    have h4 : (0 : ℚ) ≤ min ((p.helpful_reviews : ℚ) * 2) 20 :=
      le_min (by positivity) (by norm_num)
    have h5 : (0 : ℚ) ≤ min ((p.spots_added : ℚ) * 3) 15 :=
      le_min (by positivity) (by norm_num)
    have h6 : (0 : ℚ) ≤ min (p.reviewer_rating * 2) 10 :=
      le_min (by linarith) (by norm_num)
    have h7 : (0 : ℚ) ≤ min ((membershipDays p now : ℚ) / 30) 10 :=
      le_min (by linarith) (by norm_num)
    have h8 : (0 : ℚ) ≤ min ((p.community_vouches : ℚ) * 2) 10 :=
      le_min (by positivity) (by norm_num)
    linarith
  refine ⟨?_, ?_, ?_⟩
  · unfold calculateTrustScore
    rw [min_jsRound_hundred]
    ring_nf
  · unfold calculateTrustScore
    apply le_min
    · apply jsRound_nonneg
      linarith [hscore]
    · norm_num
  · unfold calculateTrustScore
    exact min_le_right _ _

/-- Witness for `calculateTrustScore_spec`: the fully-maxed profile of spec
§8 (all verifications, 100 helpful reviews, 100 spots, reviewer rating 5,
1000 days of membership, 100 vouches) satisfies the hypotheses and scores
exactly 100. -/
theorem calculateTrustScore_spec_witness :
    (0 : ℚ) ≤ (5 : ℚ) ∧ (0 : ℚ) ≤ (86400000000 : ℚ) ∧
    calculateTrustScore
      { travel_modes := [.hitchhiking], primary_mode := .hitchhiking,
        safety_priority := .high, email_verified := true,
        phone_verified := true, social_connected := true,
        community_vouches := 100, total_reviews := 100,
        helpful_reviews := 100, reviewer_rating := 5, spots_added := 100,
        verified_spots := 0, languages := [], countries_visited := [],
        show_all_spots := false, created_at := 0 } 86400000000 = 100 := by
  have h := calculateTrustScore_spec
    { travel_modes := [.hitchhiking], primary_mode := .hitchhiking,
      safety_priority := .high, email_verified := true,
      phone_verified := true, social_connected := true,
      community_vouches := 100, total_reviews := 100,
      helpful_reviews := 100, reviewer_rating := 5, spots_added := 100,
      verified_spots := 0, languages := [], countries_visited := [],
      show_all_spots := false, created_at := 0 } 86400000000
    (by norm_num) (by norm_num)
  refine ⟨by norm_num, by norm_num, ?_⟩
  rw [h.1]
  have hd : membershipDays
      { travel_modes := [.hitchhiking], primary_mode := .hitchhiking,
        safety_priority := .high, email_verified := true,
        phone_verified := true, social_connected := true,
        community_vouches := 100, total_reviews := 100,
        helpful_reviews := 100, reviewer_rating := 5, spots_added := 100,
        verified_spots := 0, languages := [], countries_visited := [],
        show_all_spots := false, created_at := 0 } 86400000000 = 1000 := by
    unfold membershipDays
    norm_num [Int.floor_eq_iff]
  rw [hd]
  norm_num [min_def]
  exact jsRound_hundred

/-- The per-mode statistics record built by
`SpotService.updateSpotAggregatedRatings` (its local `modeRatings` values):
safety, effectiveness and review count are always present, the
mode-conditional extras only when at least one review supplied the
corresponding optional value. -/
structure ModeStats where
  safety : ℚ
  effectiveness : ℚ
  review_count : Nat
  avg_wait_time : Option ℚ := none
  legal_status : Option ℚ := none
  facilities : Option ℚ := none
  accessibility : Option ℚ := none
deriving DecidableEq, Repr

/-- `Spot.ts`: the `mode_ratings` JSON column, one optional record per
transport mode. -/
structure ModeRatings where
  hitchhiking : Option ModeStats := none
  cycling : Option ModeStats := none
  van_life : Option ModeStats := none
  walking : Option ModeStats := none
deriving DecidableEq, Repr

/-- `Spot.ts`: the spot row, restricted to the columns the discovery and
aggregation engine reads or writes.  `created_at` is a timestamp. -/
structure Spot where
  id : Nat
  latitude : ℚ
  longitude : ℚ
  spot_type : SpotType
  transport_modes : List TransportMode
  safety_rating : ℚ
  overall_rating : ℚ
  mode_ratings : Option ModeRatings
  is_active : Bool
  created_at : ℚ
deriving DecidableEq, Repr

/-- `SpotReview.ts`: the review row, restricted to the columns the engine
reads or writes. -/
structure SpotReview where
  user_id : Nat
  spot_id : Nat
  transport_mode : TransportMode
  safety_rating : ℚ
  effectiveness_rating : ℚ
  overall_rating : ℚ
  wait_time_minutes : Option ℚ := none
  legal_status : Option ℚ := none
  facility_rating : Option ℚ := none
  accessibility_rating : Option ℚ := none
deriving DecidableEq, Repr

/-- The persistent store seen by `SpotService`: the `spots` and
`spot_reviews` tables. -/
structure SpotStore where
  spots : List Spot
  reviews : List SpotReview
deriving DecidableEq, Repr

/-- The `reviewData` argument of `SpotService.addSpotReview` (rating and
mode fields; free-text/photo/location fields are irrelevant to the
aggregation engine). -/
structure ReviewData where
  user_id : Nat
  transport_mode : TransportMode
  safety_rating : ℚ
  effectiveness_rating : ℚ
  overall_rating : ℚ
  wait_time_minutes : Option ℚ := none
  legal_status : Option ℚ := none
  facility_rating : Option ℚ := none
  accessibility_rating : Option ℚ := none
deriving DecidableEq, Repr

/-- `SpotService.getSpotById`: `findOne({ where: { id, is_active: true } })`,
404 when absent. -/
def getSpotById (store : SpotStore) (id : Nat) : Except SvcError Spot :=
  match store.spots.find? (fun s => s.id == id && s.is_active) with
  | none => .error ⟨"Spot not found", 404⟩
  | some s => .ok s

/-- `SpotService.updateSpotRatings`: one SQL `AVG` over all reviews of the
spot for `overall_rating` and `safety_rating`, then
`spotRepository.update(spotId, ...)`.  The written values land in the
`numeric(2,1)` columns of `Spot.ts`, which round them to one decimal
place (`round1`). -/
def updateSpotRatings (store : SpotStore) (spotId : Nat) : SpotStore :=
  let spotReviews := store.reviews.filter (fun r => r.spot_id == spotId)
  let avgOverall := sqlAvg (spotReviews.map (·.overall_rating))
  let avgSafety := sqlAvg (spotReviews.map (·.safety_rating))
  { store with
    spots := store.spots.map (fun s =>
      if s.id == spotId then
        { s with overall_rating := round1 avgOverall,
                 safety_rating := round1 avgSafety }
      else s) }

/-- The `modeRatings[mode]` record `SpotService.updateSpotAggregatedRatings`
builds for one transport mode from the reviews of that mode (`none` when the
mode has no reviews, mirroring the `modeReviews.length > 0` guard). -/
def computeModeStats (mode : TransportMode) (reviews : List SpotReview) :
    Option ModeStats :=
  let modeReviews := reviews.filter (fun r => r.transport_mode == mode)
  if modeReviews = [] then none
  else
    let base : ModeStats :=
      { safety := calculateAverage (modeReviews.map (·.safety_rating)),
        effectiveness :=
          calculateAverage (modeReviews.map (·.effectiveness_rating)),
        review_count := modeReviews.length }
    let withWait :=
      if mode = .hitchhiking then
        let waitTimes := modeReviews.filterMap (·.wait_time_minutes)
        if waitTimes = [] then base
        else { base with avg_wait_time := some (calculateAverage waitTimes) }
      else base
    let withLegal :=
      if mode = .van_life then
        let legalStatuses := modeReviews.filterMap (·.legal_status)
        if legalStatuses = [] then withWait
        else { withWait with
                 legal_status := some (calculateAverage legalStatuses) }
      else withWait
    let withFacilities :=
      if mode = .cycling ∨ mode = .walking then
        let facilityRatings := modeReviews.filterMap (·.facility_rating)
        let f :=
          if facilityRatings = [] then withLegal
          else { withLegal with
                   facilities := some (calculateAverage facilityRatings) }
        let accessibilityRatings :=
          modeReviews.filterMap (·.accessibility_rating)
        if accessibilityRatings = [] then f
        else { f with
                 accessibility := some (calculateAverage accessibilityRatings) }
      else withLegal
    some withFacilities

/-- The whole `modeRatings` object `updateSpotAggregatedRatings` builds by
looping over `Object.values(TransportMode)`. -/
def computeModeRatings (reviews : List SpotReview) : ModeRatings :=
  { hitchhiking := computeModeStats .hitchhiking reviews,
    cycling := computeModeStats .cycling reviews,
    van_life := computeModeStats .van_life reviews,
    walking := computeModeStats .walking reviews }

/-- `SpotService.updateSpotAggregatedRatings`: loads the spot with its
reviews (by id only, no error when absent — the function just returns), and
builds the local `modeRatings` record.  The source never assigns the record
to the spot and never saves it, so the store is returned unchanged. -/
def updateSpotAggregatedRatings (store : SpotStore) (spotId : Nat) :
    SpotStore :=
  match store.spots.find? (fun s => s.id == spotId) with
  | none => store
  | some _ =>
      let _modeRatings :=
        computeModeRatings (store.reviews.filter (fun r => r.spot_id == spotId))
      store

/-- `SpotService.addSpotReview`: validates `safety_rating` and
`overall_rating` (the service itself does not check
`effectiveness_rating`; the HTTP route does), requires the spot to exist
and be active, rejects a duplicate (user, spot) review with 409, then
persists the review and recomputes the spot ratings. -/
def addSpotReview (store : SpotStore) (spotId : Nat) (d : ReviewData) :
    Except SvcError (SpotStore × SpotReview) :=
  if d.safety_rating < 1 ∨ d.safety_rating > 5 then
    .error ⟨"Safety rating must be between 1 and 5", 400⟩
  else if d.overall_rating < 1 ∨ d.overall_rating > 5 then
    .error ⟨"Overall rating must be between 1 and 5", 400⟩
  else
    match getSpotById store spotId with
    | .error e => .error e
    | .ok _ =>
      if (store.reviews.find? (fun r =>
            r.spot_id == spotId && r.user_id == d.user_id)).isSome then
        .error ⟨"You have already reviewed this spot", 409⟩
      else
        let review : SpotReview :=
          { user_id := d.user_id, spot_id := spotId,
            transport_mode := d.transport_mode,
            safety_rating := d.safety_rating,
            effectiveness_rating := d.effectiveness_rating,
            overall_rating := d.overall_rating,
            wait_time_minutes := d.wait_time_minutes,
            legal_status := d.legal_status,
            facility_rating := d.facility_rating,
            accessibility_rating := d.accessibility_rating }
        let store1 : SpotStore :=
          { store with reviews := store.reviews ++ [review] }
        .ok (updateSpotRatings store1 spotId, review)

/-- The review set of one spot, `.where('review.spot_id = :spotId')`. -/
def spotReviewsOf (store : SpotStore) (spotId : Nat) : List SpotReview :=
  store.reviews.filter (fun r => r.spot_id == spotId)

lemma jsRound_intCast (n : ℤ) : jsRound (n : ℚ) = n := by
  unfold jsRound
  rw [Int.floor_eq_iff]
  constructor <;> norm_num

lemma round1_intCast (n : ℤ) : round1 (n : ℚ) = n := by
  unfold round1
  have h : ((n : ℚ)) * 10 = ((n * 10 : ℤ) : ℚ) := by push_cast; ring
  rw [h, jsRound_intCast]
  push_cast
  ring

lemma updateSpotRatings_reviews (store : SpotStore) (spotId : Nat) :
    (updateSpotRatings store spotId).reviews = store.reviews := rfl

lemma updateSpotRatings_spot_eq (store : SpotStore) (spotId : Nat)
    (s' : Spot) (hmem : s' ∈ (updateSpotRatings store spotId).spots)
    (hid : s'.id = spotId) :
    s'.overall_rating =
      round1 (sqlAvg ((spotReviewsOf store spotId).map (·.overall_rating))) ∧
    s'.safety_rating =
      round1 (sqlAvg ((spotReviewsOf store spotId).map (·.safety_rating))) := by
  unfold updateSpotRatings at hmem
  simp only [List.mem_map] at hmem
  obtain ⟨s, _, heq⟩ := hmem
  by_cases hcase : s.id = spotId
  · rw [if_pos (by simp [hcase])] at heq
    rw [← heq]
    exact ⟨rfl, rfl⟩
  · rw [if_neg (by simp [hcase])] at heq
    rw [← heq] at hid
    exact absurd hid hcase

lemma addSpotReview_ok {store : SpotStore} {spotId : Nat} {d : ReviewData}
    {store' : SpotStore} {r : SpotReview}
    (h : addSpotReview store spotId d = .ok (store', r)) :
    r = { user_id := d.user_id, spot_id := spotId,
          transport_mode := d.transport_mode,
          safety_rating := d.safety_rating,
          effectiveness_rating := d.effectiveness_rating,
          overall_rating := d.overall_rating,
          wait_time_minutes := d.wait_time_minutes,
          legal_status := d.legal_status,
          facility_rating := d.facility_rating,
          accessibility_rating := d.accessibility_rating } ∧
    store' = updateSpotRatings
      { store with reviews := store.reviews ++ [r] } spotId ∧
    store.reviews.find? (fun rv =>
      rv.spot_id == spotId && rv.user_id == d.user_id) = none := by
  unfold addSpotReview at h
  split at h
  · exact absurd h (by simp)
  split at h
  · exact absurd h (by simp)
  split at h
  · exact absurd h (by simp)
  split at h
  · exact absurd h (by simp)
  rename_i hfind
  simp only [Except.ok.injEq, Prod.mk.injEq] at h
  obtain ⟨h1, h2⟩ := h
  refine ⟨h2.symm, ?_, ?_⟩
  · rw [← h1, ← h2]
  · have h3 : ∀ x ∈ store.reviews, x.spot_id = spotId → ¬x.user_id = d.user_id := by
      simpa using hfind
    rw [List.find?_eq_none]
    intro x hx
    simp only [Bool.and_eq_true, beq_iff_eq, not_and]
    exact h3 x hx

lemma round1_zero : round1 0 = 0 := by simpa using round1_intCast 0

lemma round1_four : round1 4 = 4 := by simpa using round1_intCast 4

lemma round1_five : round1 5 = 5 := by simpa using round1_intCast 5

/-- Spec §3 invariant: at most one review per (user, spot) pair. -/
def atMostOneReviewPerPair (store : SpotStore) : Prop :=
  store.reviews.Pairwise
    (fun a b => ¬(a.spot_id = b.spot_id ∧ a.user_id = b.user_id))

/-- C1: after every successful `addSpotReview`, the target spot's stored
`overall_rating` equals the mean of all of that spot's reviews'
`overall_rating` rounded to one decimal, its `safety_rating` is the rounded
mean of their `safety_rating` (the review set is non-empty after success),
and a rating recomputation over an empty review set stores 0 for both. -/
theorem addSpotReview_recomputes_spot_ratings
    (store : SpotStore) (spotId : Nat) (d : ReviewData)
    (store' : SpotStore) (r : SpotReview)
    (h : addSpotReview store spotId d = .ok (store', r)) :
    spotReviewsOf store' spotId ≠ [] ∧
    (∀ s' ∈ store'.spots, s'.id = spotId →
      s'.overall_rating =
        round1 (((spotReviewsOf store' spotId).map (·.overall_rating)).sum /
          ((spotReviewsOf store' spotId).length : ℚ)) ∧
      s'.safety_rating =
        round1 (((spotReviewsOf store' spotId).map (·.safety_rating)).sum /
          ((spotReviewsOf store' spotId).length : ℚ))) ∧
    (∀ (st : SpotStore) (i : Nat), spotReviewsOf st i = [] →
      ∀ s' ∈ (updateSpotRatings st i).spots, s'.id = i →
        s'.overall_rating = 0 ∧ s'.safety_rating = 0) := by
  obtain ⟨hr, hst, _⟩ := addSpotReview_ok h
  have hrev : store'.reviews = store.reviews ++ [r] := by
    rw [hst]; rfl
  have hrspot : r.spot_id = spotId := by rw [hr]
  have hmemr : r ∈ spotReviewsOf store' spotId := by
    unfold spotReviewsOf
    rw [hrev]
    exact List.mem_filter.mpr ⟨by simp, by simp [hrspot]⟩
  have hne : spotReviewsOf store' spotId ≠ [] := List.ne_nil_of_mem hmemr
  have hsame : spotReviewsOf
      { store with reviews := store.reviews ++ [r] } spotId =
      spotReviewsOf store' spotId := by
    unfold spotReviewsOf
    rw [hrev]
  refine ⟨hne, ?_, ?_⟩
  · intro s' hs' hid
    have hmem1 : s' ∈ (updateSpotRatings
        { store with reviews := store.reviews ++ [r] } spotId).spots := by
      rw [← hst]; exact hs'
    have hrates := updateSpotRatings_spot_eq _ spotId s' hmem1 hid
    rw [hsame] at hrates
    have hlen : ∀ (f : SpotReview → ℚ),
        sqlAvg ((spotReviewsOf store' spotId).map f) =
          ((spotReviewsOf store' spotId).map f).sum /
            ((spotReviewsOf store' spotId).length : ℚ) := by
      intro f
      unfold sqlAvg
      rw [if_neg (by simpa using hne)]
      simp
    rw [hlen, hlen] at hrates
    exact hrates
  · intro st i hempty s' hs' hid
    have hrates := updateSpotRatings_spot_eq st i s' hs' hid
    rw [hempty] at hrates
    simpa [sqlAvg, round1_zero] using hrates

/-- Witness for `addSpotReview_recomputes_spot_ratings`: a concrete
successful submission on a one-spot store, whose post-state review set for
the spot is non-empty and whose stored ratings are the rounded means. -/
theorem addSpotReview_recomputes_spot_ratings_witness :
    addSpotReview
      ⟨[{ id := 1, latitude := 50, longitude := 6, spot_type := .rest_stop,
          transport_modes := [.hitchhiking], safety_rating := 0,
          overall_rating := 0, mode_ratings := none, is_active := true,
          created_at := 0 }], []⟩ 1
      { user_id := 7, transport_mode := .hitchhiking, safety_rating := 4,
        effectiveness_rating := 3, overall_rating := 4 } =
      .ok (⟨[{ id := 1, latitude := 50, longitude := 6,
               spot_type := .rest_stop,
               transport_modes := [.hitchhiking], safety_rating := 4,
               overall_rating := 4, mode_ratings := none, is_active := true,
               created_at := 0 }],
            [{ user_id := 7, spot_id := 1, transport_mode := .hitchhiking,
               safety_rating := 4, effectiveness_rating := 3,
               overall_rating := 4 }]⟩,
           { user_id := 7, spot_id := 1, transport_mode := .hitchhiking,
             safety_rating := 4, effectiveness_rating := 3,
             overall_rating := 4 }) ∧
    spotReviewsOf
      ⟨[{ id := 1, latitude := 50, longitude := 6, spot_type := .rest_stop,
          transport_modes := [.hitchhiking], safety_rating := 4,
          overall_rating := 4, mode_ratings := none, is_active := true,
          created_at := 0 }],
        [{ user_id := 7, spot_id := 1, transport_mode := .hitchhiking,
           safety_rating := 4, effectiveness_rating := 3,
           overall_rating := 4 }]⟩ 1 ≠ [] := by
  have h0 : addSpotReview
      ⟨[{ id := 1, latitude := 50, longitude := 6, spot_type := .rest_stop,
          transport_modes := [.hitchhiking], safety_rating := 0,
          overall_rating := 0, mode_ratings := none, is_active := true,
          created_at := 0 }], []⟩ 1
      { user_id := 7, transport_mode := .hitchhiking, safety_rating := 4,
        effectiveness_rating := 3, overall_rating := 4 } =
      .ok (⟨[{ id := 1, latitude := 50, longitude := 6,
               spot_type := .rest_stop,
               transport_modes := [.hitchhiking], safety_rating := 4,
               overall_rating := 4, mode_ratings := none, is_active := true,
               created_at := 0 }],
            [{ user_id := 7, spot_id := 1, transport_mode := .hitchhiking,
               safety_rating := 4, effectiveness_rating := 3,
               overall_rating := 4 }]⟩,
           { user_id := 7, spot_id := 1, transport_mode := .hitchhiking,
             safety_rating := 4, effectiveness_rating := 3,
             overall_rating := 4 }) := by
    norm_num [addSpotReview, getSpotById, updateSpotRatings, sqlAvg,
      List.find?, List.filter, round1_four]
  exact ⟨h0, (addSpotReview_recomputes_spot_ratings _ _ _ _ _ h0).1⟩

lemma transportMode_beq (a b : TransportMode) : (a == b) = decide (a = b) := rfl

/-- C2 (code bug): a successful review submission never recomputes
`mode_ratings`.  At a concrete first hitchhiking review on an active spot,
`addSpotReview` succeeds, persists the review and updates the two scalar
ratings, yet leaves the persisted `mode_ratings` at its prior value
(`none`) — while the mode-scoped recomputation prescribed by the spec
(exactly what the dead code in `updateSpotAggregatedRatings` builds and then
discards) yields a populated hitchhiking record.  The third conjunct shows
`updateSpotAggregatedRatings` itself persists nothing on any store. -/
theorem modeRatings_never_persisted :
    addSpotReview
      ⟨[{ id := 1, latitude := 50, longitude := 6, spot_type := .rest_stop,
          transport_modes := [.hitchhiking], safety_rating := 0,
          overall_rating := 0, mode_ratings := none, is_active := true,
          created_at := 0 }], []⟩ 1
      { user_id := 7, transport_mode := .hitchhiking, safety_rating := 5,
        effectiveness_rating := 4, overall_rating := 5,
        wait_time_minutes := some 30 } =
      .ok (⟨[{ id := 1, latitude := 50, longitude := 6,
               spot_type := .rest_stop,
               transport_modes := [.hitchhiking], safety_rating := 5,
               overall_rating := 5, mode_ratings := none, is_active := true,
               created_at := 0 }],
            [{ user_id := 7, spot_id := 1, transport_mode := .hitchhiking,
               safety_rating := 5, effectiveness_rating := 4,
               overall_rating := 5, wait_time_minutes := some 30 }]⟩,
           { user_id := 7, spot_id := 1, transport_mode := .hitchhiking,
             safety_rating := 5, effectiveness_rating := 4,
             overall_rating := 5, wait_time_minutes := some 30 }) ∧
    computeModeRatings
      [{ user_id := 7, spot_id := 1, transport_mode := .hitchhiking,
         safety_rating := 5, effectiveness_rating := 4, overall_rating := 5,
         wait_time_minutes := some 30 }] =
      { hitchhiking := some { safety := 5, effectiveness := 4,
                              review_count := 1, avg_wait_time := some 30 },
        cycling := none, van_life := none, walking := none } ∧
    (∀ (st : SpotStore) (i : Nat), updateSpotAggregatedRatings st i = st) := by
  refine ⟨?_, ?_, ?_⟩
  · norm_num [addSpotReview, getSpotById, updateSpotRatings, sqlAvg,
      List.find?, List.filter, round1_five]
  · have h30 : round1 30 = 30 := by simpa using round1_intCast 30
    have d1 : decide (TransportMode.hitchhiking = TransportMode.hitchhiking)
        = true := rfl
    have d2 : decide (TransportMode.hitchhiking = TransportMode.cycling)
        = false := rfl
    have d3 : decide (TransportMode.hitchhiking = TransportMode.van_life)
        = false := rfl
    have d4 : decide (TransportMode.hitchhiking = TransportMode.walking)
        = false := rfl
    norm_num [computeModeRatings, computeModeStats, calculateAverage,
      List.filter, List.filterMap, round1_four, round1_five, h30,
      transportMode_beq, d1, d2, d3, d4]
  · intro st i
    unfold updateSpotAggregatedRatings
    split <;> rfl

/-- C4: a submission whose ratings pass validation, whose target spot
exists and is active, and whose (user, spot) pair already has a review is
rejected with the 409 Conflict error (so no second review and no rating
update is persisted), and a successful submission preserves the
at-most-one-review-per-(user, spot) invariant. -/
theorem addSpotReview_duplicate_conflict
    (store : SpotStore) (spotId : Nat) (d : ReviewData) (s : Spot)
    (hs : 1 ≤ d.safety_rating) (hs5 : d.safety_rating ≤ 5)
    (ho : 1 ≤ d.overall_rating) (ho5 : d.overall_rating ≤ 5)
    (hspot : getSpotById store spotId = .ok s)
    (rv : SpotReview) (hrv : rv ∈ store.reviews)
    (hrs : rv.spot_id = spotId) (hru : rv.user_id = d.user_id) :
    addSpotReview store spotId d =
      .error ⟨"You have already reviewed this spot", 409⟩ ∧
    (∀ (st : SpotStore) (i : Nat) (dd : ReviewData) (st' : SpotStore)
        (r : SpotReview), atMostOneReviewPerPair st →
      addSpotReview st i dd = .ok (st', r) → atMostOneReviewPerPair st') := by
  constructor
  · unfold addSpotReview
    rw [if_neg (by push_neg; exact ⟨by linarith, by linarith⟩),
      if_neg (by push_neg; exact ⟨by linarith, by linarith⟩), hspot]
    rw [if_pos]
    rw [List.find?_isSome]
    exact ⟨rv, hrv, by simp [hrs, hru]⟩
  · intro st i dd st' r hinv hok
    obtain ⟨hr, hst, hfind⟩ := addSpotReview_ok hok
    have hrev : st'.reviews = st.reviews ++ [r] := by rw [hst]; rfl
    unfold atMostOneReviewPerPair
    rw [hrev, List.pairwise_append]
    refine ⟨hinv, by simp, ?_⟩
    intro a ha b hb
    have hb1 : b = r := by simpa using hb
    subst hb1
    have hall : ∀ x ∈ st.reviews, ¬(x.spot_id = i ∧ x.user_id = dd.user_id) := by
      intro x hx
      have := List.find?_eq_none.mp hfind x hx
      simpa using this
    have hbspot : b.spot_id = i := by rw [hr]
    have hbuser : b.user_id = dd.user_id := by rw [hr]
    intro hcon
    exact hall a ha ⟨hcon.1.trans hbspot, hcon.2.trans hbuser⟩

/-- Witness for `addSpotReview_duplicate_conflict`: a concrete duplicate
submission (user 7 already reviewed spot 1) is rejected with 409. -/
theorem addSpotReview_duplicate_conflict_witness :
    addSpotReview
      ⟨[{ id := 1, latitude := 50, longitude := 6, spot_type := .rest_stop,
          transport_modes := [.hitchhiking], safety_rating := 4,
          overall_rating := 4, mode_ratings := none, is_active := true,
          created_at := 0 }],
        [{ user_id := 7, spot_id := 1, transport_mode := .hitchhiking,
           safety_rating := 4, effectiveness_rating := 3,
           overall_rating := 4 }]⟩ 1
      { user_id := 7, transport_mode := .cycling, safety_rating := 3,
        effectiveness_rating := 3, overall_rating := 3 } =
      .error ⟨"You have already reviewed this spot", 409⟩ := by
  have h := addSpotReview_duplicate_conflict
    ⟨[{ id := 1, latitude := 50, longitude := 6, spot_type := .rest_stop,
        transport_modes := [.hitchhiking], safety_rating := 4,
        overall_rating := 4, mode_ratings := none, is_active := true,
        created_at := 0 }],
      [{ user_id := 7, spot_id := 1, transport_mode := .hitchhiking,
         safety_rating := 4, effectiveness_rating := 3,
         overall_rating := 4 }]⟩ 1
    { user_id := 7, transport_mode := .cycling, safety_rating := 3,
      effectiveness_rating := 3, overall_rating := 3 }
    { id := 1, latitude := 50, longitude := 6, spot_type := .rest_stop,
      transport_modes := [.hitchhiking], safety_rating := 4,
      overall_rating := 4, mode_ratings := none, is_active := true,
      created_at := 0 }
    (by norm_num) (by norm_num) (by norm_num) (by norm_num)
    (by norm_num [getSpotById, List.find?])
    { user_id := 7, spot_id := 1, transport_mode := .hitchhiking,
      safety_rating := 4, effectiveness_rating := 3, overall_rating := 4 }
    (by simp) rfl rfl
  exact h.1

/-- JavaScript `parseInt` on a (decimal-printed) number: truncation toward
zero. -/
def ratTrunc (x : ℚ) : ℤ :=
  if 0 ≤ x then ⌊x⌋ else -⌊-x⌋

/-- The request body of `POST /:id/reviews` (fields relevant to the
engine; `comment`, photos, location and context do not affect control
flow).  Rating fields arrive as JSON numbers. -/
structure ReviewBody where
  transport_mode : Option TransportMode
  safety_rating : ℚ
  effectiveness_rating : ℚ
  overall_rating : ℚ
  wait_time_minutes : Option ℚ := none
  legal_status : Option ℚ := none
  facility_rating : Option ℚ := none
  accessibility_rating : Option ℚ := none
deriving DecidableEq, Repr

/-- `x ? parseInt(x) : undefined` on an optional numeric body field:
JavaScript truthiness drops an absent or zero value. -/
def jsOptParse (o : Option ℚ) : Option ℚ :=
  match o with
  | none => none
  | some x => if x = 0 then none else some ((ratTrunc x : ℚ))

/-- The hard-coded dev user id the route passes as `user_id`
(`'a0eebc99-9c0b-4ef8-bb6d-6bb9bd380a11'`), as an abstract identifier. -/
def devUserId : Nat := 0

/-- `router.post('/:id/reviews')` from `routes/spots.ts`: required-field
truthiness check (a zero rating is falsy and fails the required check),
transport-mode validity (absorbed by the typed field), the [1,5] range check
on all three ratings, then the call to `SpotService.addSpotReview` with
`parseInt`-parsed ratings. -/
def postSpotReviewRoute (store : SpotStore) (spotId : Nat) (b : ReviewBody) :
    Except SvcError (SpotStore × SpotReview) :=
  match b.transport_mode with
  | none =>
      .error ⟨"transport_mode, safety_rating, effectiveness_rating, and overall_rating are required", 400⟩
  | some tm =>
      if b.safety_rating = 0 ∨ b.effectiveness_rating = 0 ∨
          b.overall_rating = 0 then
        .error ⟨"transport_mode, safety_rating, effectiveness_rating, and overall_rating are required", 400⟩
      else if b.safety_rating < 1 ∨ b.safety_rating > 5 ∨
          b.effectiveness_rating < 1 ∨ b.effectiveness_rating > 5 ∨
          b.overall_rating < 1 ∨ b.overall_rating > 5 then
        .error ⟨"Ratings must be between 1 and 5", 400⟩
      else
        addSpotReview store spotId
          { user_id := devUserId, transport_mode := tm,
            safety_rating := (ratTrunc b.safety_rating : ℚ),
            effectiveness_rating := (ratTrunc b.effectiveness_rating : ℚ),
            overall_rating := (ratTrunc b.overall_rating : ℚ),
            wait_time_minutes := jsOptParse b.wait_time_minutes,
            legal_status := jsOptParse b.legal_status,
            facility_rating := jsOptParse b.facility_rating,
            accessibility_rating := jsOptParse b.accessibility_rating }

/-- The HTTP status of the error result, if any. -/
def errStatus {α : Type} : Except SvcError α → Option Nat
  | .error e => some e.status
  | .ok _ => none

lemma getSpotById_error {store : SpotStore} {id : Nat} {e : SvcError}
    (h : getSpotById store id = .error e) : e = ⟨"Spot not found", 404⟩ := by
  unfold getSpotById at h
  split at h
  · exact (Except.error.injEq _ _).mp h.symm
  · exact absurd h (by simp)

lemma ratTrunc_rating_bounds {x : ℚ} (h1 : 1 ≤ x) (h5 : x ≤ 5) :
    1 ≤ (ratTrunc x : ℚ) ∧ (ratTrunc x : ℚ) ≤ 5 := by
  have h0 : 0 ≤ x := by linarith
  unfold ratTrunc
  rw [if_pos h0]
  constructor
  · have hz : (1 : ℤ) ≤ ⌊x⌋ := Int.le_floor.mpr (by exact_mod_cast h1)
    exact_mod_cast hz
  · have := Int.floor_le x
    linarith

lemma addSpotReview_status (store : SpotStore) (spotId : Nat) (d : ReviewData)
    (hs : 1 ≤ d.safety_rating) (hs5 : d.safety_rating ≤ 5)
    (ho : 1 ≤ d.overall_rating) (ho5 : d.overall_rating ≤ 5) :
    errStatus (addSpotReview store spotId d) = none ∨
    errStatus (addSpotReview store spotId d) = some 404 ∨
    errStatus (addSpotReview store spotId d) = some 409 := by
  unfold addSpotReview
  rw [if_neg (by push_neg; exact ⟨by linarith, by linarith⟩),
    if_neg (by push_neg; exact ⟨by linarith, by linarith⟩)]
  cases hg : getSpotById store spotId with
  | error e =>
      right; left
      rw [getSpotById_error hg]
      rfl
  | ok s =>
      by_cases hdup : (store.reviews.find? (fun r =>
          r.spot_id == spotId && r.user_id == d.user_id)).isSome = true
      · right; right
        rw [if_pos hdup]
        rfl
      · left
        rw [if_neg hdup]
        rfl

/-- C5: the review-submission endpoint (route validation composed with
`addSpotReview`) rejects with a 400 validation error whenever any of
`safety_rating`, `effectiveness_rating` or `overall_rating` lies outside
[1,5] (no review is persisted on an error), and when all three lie in
[1,5] the ratings precondition passes: the call either succeeds or fails
only with 404 (spot missing/inactive) or 409 (duplicate review). -/
theorem postSpotReviewRoute_rating_validation (store : SpotStore)
    (spotId : Nat) (b : ReviewBody) :
    ((b.safety_rating < 1 ∨ b.safety_rating > 5 ∨
      b.effectiveness_rating < 1 ∨ b.effectiveness_rating > 5 ∨
      b.overall_rating < 1 ∨ b.overall_rating > 5) →
      errStatus (postSpotReviewRoute store spotId b) = some 400) ∧
    (∀ tm, b.transport_mode = some tm →
      1 ≤ b.safety_rating → b.safety_rating ≤ 5 →
      1 ≤ b.effectiveness_rating → b.effectiveness_rating ≤ 5 →
      1 ≤ b.overall_rating → b.overall_rating ≤ 5 →
      errStatus (postSpotReviewRoute store spotId b) = none ∨
      errStatus (postSpotReviewRoute store spotId b) = some 404 ∨
      errStatus (postSpotReviewRoute store spotId b) = some 409) := by
  constructor
  · intro hout
    unfold postSpotReviewRoute
    split
    · rfl
    · split
      · rfl
      · rfl
  · intro tm htm h1 h2 h3 h4 h5 h6
    have hz : ¬(b.safety_rating = 0 ∨ b.effectiveness_rating = 0 ∨
        b.overall_rating = 0) := by
      push_neg
      exact ⟨by linarith, by linarith, by linarith⟩
    have hrange : ¬(b.safety_rating < 1 ∨ b.safety_rating > 5 ∨
        b.effectiveness_rating < 1 ∨ b.effectiveness_rating > 5 ∨
        b.overall_rating < 1 ∨ b.overall_rating > 5) := by
      push_neg
      exact ⟨by linarith, by linarith, by linarith, by linarith,
        by linarith, by linarith⟩
    unfold postSpotReviewRoute
    split
    · rename_i heq
      rw [htm] at heq
      cases heq
    · rw [if_neg hz, if_neg hrange]
      obtain ⟨hsa, hsb⟩ := ratTrunc_rating_bounds h1 h2
      obtain ⟨hoa, hob⟩ := ratTrunc_rating_bounds h5 h6
      exact addSpotReview_status store spotId _ hsa hsb hoa hob

/-- Witness for `postSpotReviewRoute_rating_validation`: a concrete body
with `safety_rating = 6` is rejected with status 400, and a concrete
in-range body passes the ratings precondition (here it succeeds, status
`none`, or fails only as 404/409). -/
theorem postSpotReviewRoute_rating_validation_witness :
    errStatus (postSpotReviewRoute
      ⟨[{ id := 1, latitude := 50, longitude := 6, spot_type := .rest_stop,
          transport_modes := [.hitchhiking], safety_rating := 0,
          overall_rating := 0, mode_ratings := none, is_active := true,
          created_at := 0 }], []⟩ 1
      { transport_mode := some .hitchhiking, safety_rating := 6,
        effectiveness_rating := 3, overall_rating := 3 }) = some 400 ∧
    (errStatus (postSpotReviewRoute
      ⟨[{ id := 1, latitude := 50, longitude := 6, spot_type := .rest_stop,
          transport_modes := [.hitchhiking], safety_rating := 0,
          overall_rating := 0, mode_ratings := none, is_active := true,
          created_at := 0 }], []⟩ 1
      { transport_mode := some .hitchhiking, safety_rating := 4,
        effectiveness_rating := 3, overall_rating := 4 }) = none ∨
     errStatus (postSpotReviewRoute
      ⟨[{ id := 1, latitude := 50, longitude := 6, spot_type := .rest_stop,
          transport_modes := [.hitchhiking], safety_rating := 0,
          overall_rating := 0, mode_ratings := none, is_active := true,
          created_at := 0 }], []⟩ 1
      { transport_mode := some .hitchhiking, safety_rating := 4,
        effectiveness_rating := 3, overall_rating := 4 }) = some 404 ∨
     errStatus (postSpotReviewRoute
      ⟨[{ id := 1, latitude := 50, longitude := 6, spot_type := .rest_stop,
          transport_modes := [.hitchhiking], safety_rating := 0,
          overall_rating := 0, mode_ratings := none, is_active := true,
          created_at := 0 }], []⟩ 1
      { transport_mode := some .hitchhiking, safety_rating := 4,
        effectiveness_rating := 3, overall_rating := 4 }) = some 409) := by
  constructor
  · exact (postSpotReviewRoute_rating_validation _ 1 _).1 (by norm_num)
  · exact (postSpotReviewRoute_rating_validation _ 1 _).2 .hitchhiking rfl
      (by norm_num) (by norm_num) (by norm_num) (by norm_num)
      (by norm_num) (by norm_num)

/-- The `filters` argument of `SpotService.getSpotsFiltered`, with the
destructuring defaults of the source (`radius = 10`, `limit = 50`,
`offset = 0`). -/
structure SpotFilters where
  transportModes : Option (List TransportMode) := none
  userId : Option Nat := none
  latitude : Option ℚ := none
  longitude : Option ℚ := none
  radius : ℚ := 10
  limit : Nat := 50
  offset : Nat := 0
  spotType : Option SpotType := none
  minRating : Option ℚ := none
  safetyPriority : Option SafetyPriority := none
deriving DecidableEq, Repr

/-- JavaScript truthiness of an optional number: `undefined` and `0` are
falsy. -/
def numTruthy : Option ℚ → Bool
  | none => false
  | some x => decide (x ≠ 0)

/-- `if (latitude && longitude)` in `getSpotsFiltered`: both coordinates
present and non-zero. -/
def coordsTruthy (f : SpotFilters) : Bool :=
  numTruthy f.latitude && numTruthy f.longitude

/-- The result shape of `UserProfileService.getUserFilterPreferences`, as
consumed by `getSpotsFiltered` (`travelModes`, `showAllSpots`, plus the
safety priority the preference resolver reports). -/
structure FilterPreferences where
  travelModes : List TransportMode
  showAllSpots : Bool
  safetyPriority : SafetyPriority
deriving DecidableEq, Repr

/-- Modelled from the spec: `UserProfileService.getUserFilterPreferences`
is called by `getSpotsFiltered` (src/unnamed/part_006) but its definition
is not among the provided sources.  Per spec §4.1 the preference resolver
returns a permissive default for a user without a profile (empty
transport-mode restriction, high safety priority) and otherwise reports the
profile's `travel_modes`, `show_all_spots` and `safety_priority` (the
caller applies the `show_all_spots` opt-out). -/
def getUserFilterPreferences (profiles : Nat → Option UserProfile)
    (userId : Nat) : FilterPreferences :=
  match profiles userId with
  | none => { travelModes := [], showAllSpots := false,
              safetyPriority := .high }
  | some p => { travelModes := p.travel_modes,
                showAllSpots := p.show_all_spots,
                safetyPriority := p.safety_priority }

/-- The `effectiveTransportModes` local of `getSpotsFiltered`: an explicit
`transportModes` filter wins; otherwise a user context resolves through the
profile preferences unless `show_all_spots` opts out; otherwise empty
(no mode restriction). -/
def effectiveTransportModes (profiles : Nat → Option UserProfile)
    (f : SpotFilters) : List TransportMode :=
  match f.transportModes with
  | some ms => ms
  | none =>
      match f.userId with
      | some uid =>
          let prefs := getUserFilterPreferences profiles uid
          if prefs.showAllSpots then [] else prefs.travelModes
      | none => []

/-- The conjunction of row predicates `getSpotsFiltered` issues
(`is_active`, transport-mode array overlap, `ST_DWithin` radius when both
coordinates are truthy, spot type, `minRating` when truthy, safety
threshold).  `dist` abstracts the PostGIS geodesic distance in meters
between two (latitude, longitude) points. -/
def spotPasses (dist : ℚ × ℚ → ℚ × ℚ → ℚ) (em : List TransportMode)
    (f : SpotFilters) (s : Spot) : Bool :=
  s.is_active &&
  (em.isEmpty || s.transport_modes.any (fun m => em.contains m)) &&
  (!coordsTruthy f ||
    decide (dist (s.latitude, s.longitude)
      (f.latitude.getD 0, f.longitude.getD 0) ≤ f.radius * 1000)) &&
  (match f.spotType with
   | none => true
   | some t => decide (s.spot_type = t)) &&
  (!numTruthy f.minRating ||
    decide (f.minRating.getD 0 ≤ s.overall_rating)) &&
  (match f.safetyPriority with
   | none => true
   | some .high => decide ((4 : ℚ) ≤ s.safety_rating)
   | some .medium => decide ((5 / 2 : ℚ) ≤ s.safety_rating)
   | some .low => true)

/-- Insertion into a list sorted by the boolean comparator `le`. -/
def insertSorted {α : Type} (le : α → α → Bool) (x : α) :
    List α → List α
  | [] => [x]
  | y :: ys => if le x y then x :: y :: ys else y :: insertSorted le x ys

/-- Insertion sort, modelling the SQL `ORDER BY` of the query builder. -/
def sortByKey {α : Type} (le : α → α → Bool) : List α → List α
  | [] => []
  | x :: xs => insertSorted le x (sortByKey le xs)

/-- `SpotService.getSpotsFiltered` (src/unnamed/part_006): resolves the
effective transport modes, filters active spots by the conjunction of
predicates, orders by distance when both coordinates are truthy and by
creation time descending otherwise, then applies `skip(offset)` and
`take(limit)`. -/
def getSpotsFiltered (dist : ℚ × ℚ → ℚ × ℚ → ℚ)
    (profiles : Nat → Option UserProfile) (store : SpotStore)
    (f : SpotFilters) : List Spot :=
  let em := effectiveTransportModes profiles f
  let matching := store.spots.filter (spotPasses dist em f)
  let ordered :=
    if coordsTruthy f then
      sortByKey (fun a b =>
        decide (dist (a.latitude, a.longitude)
            (f.latitude.getD 0, f.longitude.getD 0) ≤
          dist (b.latitude, b.longitude)
            (f.latitude.getD 0, f.longitude.getD 0))) matching
    else
      sortByKey (fun a b => decide (b.created_at ≤ a.created_at)) matching
  (ordered.drop f.offset).take f.limit

/-- A degenerate distance oracle that reports every pair of points two
million meters apart; used to exhibit spatial-filter behavior. -/
def farDist : ℚ × ℚ → ℚ × ℚ → ℚ := fun _ _ => 2000000

lemma mem_insertSorted {α : Type} (le : α → α → Bool) (x a : α)
    (l : List α) : a ∈ insertSorted le x l ↔ a = x ∨ a ∈ l := by
  induction l with
  | nil => simp [insertSorted]
  | cons y ys ih =>
      unfold insertSorted
      split
      · simp
      · simp [ih]
        tauto

lemma mem_sortByKey {α : Type} (le : α → α → Bool) (a : α) (l : List α) :
    a ∈ sortByKey le l ↔ a ∈ l := by
  induction l with
  | nil => simp [sortByKey]
  | cons x xs ih =>
      unfold sortByKey
      rw [mem_insertSorted]
      simp [ih]

lemma mem_of_mem_getSpotsFiltered {dist : ℚ × ℚ → ℚ × ℚ → ℚ}
    {profiles : Nat → Option UserProfile} {store : SpotStore}
    {f : SpotFilters} {s : Spot}
    (h : s ∈ getSpotsFiltered dist profiles store f) :
    s ∈ store.spots ∧
    spotPasses dist (effectiveTransportModes profiles f) f s = true := by
  unfold getSpotsFiltered at h
  have h1 := List.mem_of_mem_drop (List.mem_of_mem_take h)
  have h2 : s ∈ store.spots.filter
      (spotPasses dist (effectiveTransportModes profiles f) f) := by
    by_cases hc : coordsTruthy f = true
    · rw [if_pos hc] at h1
      exact (mem_sortByKey _ s _).mp h1
    · rw [if_neg hc] at h1
      exact (mem_sortByKey _ s _).mp h1
  exact ⟨(List.mem_filter.mp h2).1,
    (List.mem_filter.mp h2).2⟩

lemma spotPasses_props {dist : ℚ × ℚ → ℚ × ℚ → ℚ}
    {em : List TransportMode} {f : SpotFilters} {s : Spot}
    (h : spotPasses dist em f s = true) :
    s.is_active = true ∧
    (em ≠ [] → ∃ m ∈ s.transport_modes, m ∈ em) ∧
    (coordsTruthy f = true →
      dist (s.latitude, s.longitude)
        (f.latitude.getD 0, f.longitude.getD 0) ≤ f.radius * 1000) ∧
    (∀ t, f.spotType = some t → s.spot_type = t) ∧
    (numTruthy f.minRating = true →
      f.minRating.getD 0 ≤ s.overall_rating) ∧
    (f.safetyPriority = some .high → 4 ≤ s.safety_rating) ∧
    (f.safetyPriority = some .medium → 5 / 2 ≤ s.safety_rating) := by
  unfold spotPasses at h
  simp only [Bool.and_eq_true] at h
  obtain ⟨⟨⟨⟨⟨h1, h2⟩, h3⟩, h4⟩, h5⟩, h6⟩ := h
  refine ⟨h1, ?_, ?_, ?_, ?_, ?_, ?_⟩
  · intro hne
    rcases Bool.or_eq_true_iff.mp h2 with he | ha
    · exact absurd (List.isEmpty_iff.mp he) hne
    · obtain ⟨m, hm, hc⟩ := List.any_eq_true.mp ha
      exact ⟨m, hm, by simpa using hc⟩
  · intro hct
    rcases Bool.or_eq_true_iff.mp h3 with hf | hd
    · rw [hct] at hf; simp at hf
    · exact of_decide_eq_true hd
  · intro t ht
    rw [ht] at h4
    exact of_decide_eq_true h4
  · intro htr
    rcases Bool.or_eq_true_iff.mp h5 with hf | hd
    · rw [htr] at hf; simp at hf
    · exact of_decide_eq_true hd
  · intro hsp
    rw [hsp] at h6
    exact of_decide_eq_true h6
  · intro hsp
    rw [hsp] at h6
    exact of_decide_eq_true h6

/-- C3 (amended): every spot returned by `getSpotsFiltered` is active and
satisfies every supplied predicate — transport-mode overlap for a non-empty
requested mode set, spot type, `minRating` (for a non-negative-rating
store, as the rating columns guarantee), the safety-priority thresholds
(high ≥ 4.0, medium ≥ 2.5, low unconstrained) — and the spatial radius
predicate whenever both coordinates are given **and non-zero** (a zero
coordinate is falsy and disables the spatial filter); the result holds at
most `limit` spots. -/
theorem getSpotsFiltered_satisfies_predicates
    (dist : ℚ × ℚ → ℚ × ℚ → ℚ) (profiles : Nat → Option UserProfile)
    (store : SpotStore) (f : SpotFilters)
    (hnn : ∀ s ∈ store.spots, (0 : ℚ) ≤ s.overall_rating) :
    (∀ s ∈ getSpotsFiltered dist profiles store f,
      s.is_active = true ∧
      (∀ ms, f.transportModes = some ms → ms ≠ [] →
        ∃ m ∈ s.transport_modes, m ∈ ms) ∧
      (∀ t, f.spotType = some t → s.spot_type = t) ∧
      (∀ q, f.minRating = some q → q ≤ s.overall_rating) ∧
      (f.safetyPriority = some .high → 4 ≤ s.safety_rating) ∧
      (f.safetyPriority = some .medium → 5 / 2 ≤ s.safety_rating) ∧
      (∀ a b, f.latitude = some a → f.longitude = some b → a ≠ 0 → b ≠ 0 →
        dist (s.latitude, s.longitude) (a, b) ≤ f.radius * 1000)) ∧
    (getSpotsFiltered dist profiles store f).length ≤ f.limit := by
  constructor
  · intro s hs
    obtain ⟨hmem, hpass⟩ := mem_of_mem_getSpotsFiltered hs
    obtain ⟨h1, h2, h3, h4, h5, h6, h7⟩ := spotPasses_props hpass
    refine ⟨h1, ?_, h4, ?_, h6, h7, ?_⟩
    · intro ms hms hne
      have hem : effectiveTransportModes profiles f = ms := by
        unfold effectiveTransportModes
        rw [hms]
      rw [hem] at h2
      exact h2 hne
    · intro q hq
      by_cases hq0 : q = 0
      · subst hq0
        exact hnn s hmem
      · have ht : numTruthy f.minRating = true := by
          rw [hq]
          simp [numTruthy, hq0]
        have hle := h5 ht
        rw [hq] at hle
        simpa using hle
    · intro a b ha hb ha0 hb0
      have hct : coordsTruthy f = true := by
        unfold coordsTruthy numTruthy
        rw [ha, hb]
        simp [ha0, hb0]
      have hd := h3 hct
      rw [ha, hb] at hd
      simpa using hd
  · unfold getSpotsFiltered
    exact List.length_take_le _ _

/-- C3 counterexample: with coordinates supplied as latitude 0 (the
equator) and longitude 50 and a 10 km radius, a spot 2000 km away from
every point (per the distance oracle) is still returned, because the
zero latitude is falsy and the radius predicate is silently skipped. -/
theorem getSpotsFiltered_radius_skipped_counterexample :
    getSpotsFiltered farDist (fun _ => none)
      ⟨[{ id := 1, latitude := 60, longitude := 60, spot_type := .other,
          transport_modes := [], safety_rating := 0, overall_rating := 0,
          mode_ratings := none, is_active := true, created_at := 0 }], []⟩
      { latitude := some 0, longitude := some 50, radius := 10 } =
      [{ id := 1, latitude := 60, longitude := 60, spot_type := .other,
         transport_modes := [], safety_rating := 0, overall_rating := 0,
         mode_ratings := none, is_active := true, created_at := 0 }] ∧
    ¬(farDist (60, 60) (0, 50) ≤ 10 * 1000) := by
  constructor
  · norm_num [getSpotsFiltered, effectiveTransportModes, spotPasses,
      coordsTruthy, numTruthy, sortByKey, insertSorted, List.filter,
      List.take, List.drop, farDist]
  · norm_num [farDist]

/-- Witness for `getSpotsFiltered_satisfies_predicates`: on a concrete
non-negative-rating store the result size is bounded by the limit. -/
theorem getSpotsFiltered_satisfies_predicates_witness :
    (getSpotsFiltered (fun _ _ => 500) (fun _ => none)
      ⟨[{ id := 1, latitude := 1, longitude := 1, spot_type := .bridge,
          transport_modes := [.cycling], safety_rating := 4,
          overall_rating := 4, mode_ratings := none, is_active := true,
          created_at := 0 }], []⟩
      { latitude := some 1, longitude := some 1, radius := 10,
        minRating := some 3, safetyPriority := some .high }).length ≤ 50 := by
  exact (getSpotsFiltered_satisfies_predicates (fun _ _ => 500)
    (fun _ => none) _ _ (by intro s hs; simp at hs; rw [hs]; norm_num)).2

/-- C10: when the supplied latitude or longitude is zero, the coordinate
truthiness test fails and `getSpotsFiltered` behaves exactly as if no
coordinates were supplied: no spatial bound, ordering by creation time
descending (the right-hand invocation definitionally takes that branch). -/
theorem getSpotsFiltered_zero_coordinate_skips_spatial
    (dist : ℚ × ℚ → ℚ × ℚ → ℚ) (profiles : Nat → Option UserProfile)
    (store : SpotStore) (f : SpotFilters)
    (h : f.latitude = some 0 ∨ f.longitude = some 0) :
    getSpotsFiltered dist profiles store f =
      getSpotsFiltered dist profiles store
        { f with latitude := none, longitude := none } := by
  have hct : coordsTruthy f = false := by
    unfold coordsTruthy numTruthy
    rcases h with h0 | h0 <;> rw [h0] <;> simp
  have hct' : coordsTruthy
      { f with latitude := none, longitude := none } = false := rfl
  have hsp : ∀ s ∈ store.spots,
      spotPasses dist (effectiveTransportModes profiles f) f s =
      spotPasses dist (effectiveTransportModes profiles f)
        { f with latitude := none, longitude := none } s := by
    intro s _
    unfold spotPasses
    rw [hct, hct']
    simp
  unfold getSpotsFiltered
  simp only [hct, hct', Bool.false_eq_true, if_false]
  rw [List.filter_congr hsp]
  rfl

/-- Witness for `getSpotsFiltered_zero_coordinate_skips_spatial`: a
concrete query with latitude 0 returns the same list as the same query
without coordinates. -/
theorem getSpotsFiltered_zero_coordinate_skips_spatial_witness :
    getSpotsFiltered farDist (fun _ => none)
      ⟨[{ id := 1, latitude := 60, longitude := 60, spot_type := .other,
          transport_modes := [], safety_rating := 0, overall_rating := 0,
          mode_ratings := none, is_active := true, created_at := 0 }], []⟩
      { latitude := some 0, longitude := some 50, radius := 10 } =
    getSpotsFiltered farDist (fun _ => none)
      ⟨[{ id := 1, latitude := 60, longitude := 60, spot_type := .other,
          transport_modes := [], safety_rating := 0, overall_rating := 0,
          mode_ratings := none, is_active := true, created_at := 0 }], []⟩
      { latitude := none, longitude := none, radius := 10 } := by
  exact getSpotsFiltered_zero_coordinate_skips_spatial farDist
    (fun _ => none) _ _ (Or.inl rfl)

/-- C9: the effective transport-mode restriction used by the filter engine
is empty — no mode predicate — whenever the user identifier is absent, the
user has no profile, or the profile opts out with `show_all_spots`;
otherwise it equals the profile's `travel_modes`; and an explicitly
supplied `transportModes` filter takes precedence over the profile
entirely. -/
theorem effectiveTransportModes_spec (profiles : Nat → Option UserProfile)
    (f : SpotFilters) (hexp : f.transportModes = none) :
    (f.userId = none → effectiveTransportModes profiles f = []) ∧
    (∀ uid, f.userId = some uid → profiles uid = none →
      effectiveTransportModes profiles f = []) ∧
    (∀ uid p, f.userId = some uid → profiles uid = some p →
      p.show_all_spots = true → effectiveTransportModes profiles f = []) ∧
    (∀ uid p, f.userId = some uid → profiles uid = some p →
      p.show_all_spots = false →
      effectiveTransportModes profiles f = p.travel_modes) ∧
    (∀ ms, effectiveTransportModes profiles
      { f with transportModes := some ms } = ms) := by
  refine ⟨?_, ?_, ?_, ?_, ?_⟩
  · intro hu
    unfold effectiveTransportModes
    rw [hexp, hu]
  · intro uid hu hp
    unfold effectiveTransportModes getUserFilterPreferences
    rw [hexp, hu]
    simp [hp]
  · intro uid p hu hp hshow
    unfold effectiveTransportModes getUserFilterPreferences
    rw [hexp, hu]
    simp [hp, hshow]
  · intro uid p hu hp hshow
    unfold effectiveTransportModes getUserFilterPreferences
    rw [hexp, hu]
    simp [hp, hshow]
  · intro ms
    unfold effectiveTransportModes
    rfl

/-- Witness for `effectiveTransportModes_spec`: with a stored profile
(travel modes `[cycling]`, `show_all_spots = false`) the restriction is
`[cycling]`, and an explicit `[walking]` filter overrides it. -/
theorem effectiveTransportModes_spec_witness :
    effectiveTransportModes
      (fun uid => if uid = 1 then
        some { travel_modes := [.cycling], primary_mode := .cycling,
               safety_priority := .medium, email_verified := false,
               phone_verified := false, social_connected := false,
               community_vouches := 0, total_reviews := 0,
               helpful_reviews := 0, reviewer_rating := 0, spots_added := 0,
               verified_spots := 0, languages := [], countries_visited := [],
               show_all_spots := false, created_at := 0 }
        else none)
      { userId := some 1 } = [.cycling] ∧
    effectiveTransportModes
      (fun uid => if uid = 1 then
        some { travel_modes := [.cycling], primary_mode := .cycling,
               safety_priority := .medium, email_verified := false,
               phone_verified := false, social_connected := false,
               community_vouches := 0, total_reviews := 0,
               helpful_reviews := 0, reviewer_rating := 0, spots_added := 0,
               verified_spots := 0, languages := [], countries_visited := [],
               show_all_spots := false, created_at := 0 }
        else none)
      { userId := some 1, transportModes := some [.walking] } =
        [.walking] := by
  have h := effectiveTransportModes_spec
    (fun uid => if uid = 1 then
      some { travel_modes := [.cycling], primary_mode := .cycling,
             safety_priority := .medium, email_verified := false,
             phone_verified := false, social_connected := false,
             community_vouches := 0, total_reviews := 0,
             helpful_reviews := 0, reviewer_rating := 0, spots_added := 0,
             verified_spots := 0, languages := [], countries_visited := [],
             show_all_spots := false, created_at := 0 }
      else none)
    { userId := some 1 } rfl
  exact ⟨h.2.2.2.1 1
    { travel_modes := [.cycling], primary_mode := .cycling,
      safety_priority := .medium, email_verified := false,
      phone_verified := false, social_connected := false,
      community_vouches := 0, total_reviews := 0,
      helpful_reviews := 0, reviewer_rating := 0, spots_added := 0,
      verified_spots := 0, languages := [], countries_visited := [],
      show_all_spots := false, created_at := 0 } rfl rfl rfl,
    h.2.2.2.2 [.walking]⟩

/-- The query parameters of `GET /filtered` after HTTP parsing
(`routes/spots.ts`, the `optionalAuth` handler at the top of the file):
strings parsed to numbers, `transport_modes` split and validated,
`userId` from the optional auth context.  Destructuring defaults are
`radius = 10`, `limit = 50`, `offset = 0`. -/
structure FilteredQuery where
  transport_modes : Option (List TransportMode) := none
  latitude : Option ℚ := none
  longitude : Option ℚ := none
  radius : ℚ := 10
  limit : Nat := 50
  offset : Nat := 0
  spot_type : Option SpotType := none
  min_rating : Option ℚ := none
  safety_priority : Option SafetyPriority := none
  userId : Option Nat := none
deriving DecidableEq, Repr

/-- The `filters` object the `GET /filtered` handler builds: `limit` is
clamped to 100 with `Math.min` (never rejected), coordinates are attached
only when both are present (non-empty query strings are truthy) and then
`radius` is clamped to 100 with `Math.min`, `min_rating` is kept only when
within [0,5] (out-of-range values are dropped, not rejected), and no range
validation is applied to latitude or longitude. -/
def buildFilteredQueryFilters (q : FilteredQuery) : SpotFilters :=
  { transportModes := q.transport_modes,
    userId := q.userId,
    latitude := if q.latitude.isSome ∧ q.longitude.isSome
      then q.latitude else none,
    longitude := if q.latitude.isSome ∧ q.longitude.isSome
      then q.longitude else none,
    radius := if q.latitude.isSome ∧ q.longitude.isSome
      then min q.radius 100 else 10,
    limit := min q.limit 100,
    offset := q.offset,
    spotType := q.spot_type,
    minRating := match q.min_rating with
      | none => none
      | some r => if 0 ≤ r ∧ r ≤ 5 then some r else none,
    safetyPriority := q.safety_priority }

/-- The `GET /filtered` route handler: builds the filters and delegates to
`getSpotsFiltered`.  It has no validation-error path of its own. -/
def getFilteredRoute (dist : ℚ × ℚ → ℚ × ℚ → ℚ)
    (profiles : Nat → Option UserProfile) (store : SpotStore)
    (q : FilteredQuery) : Except SvcError (List Spot) :=
  .ok (getSpotsFiltered dist profiles store (buildFilteredQueryFilters q))

/-- C8 counterexample: the `GET /filtered` handler never raises a
validation error.  `limit = 150` is silently clamped to 100 (no
`ValidationError`), `radius = 500` is silently clamped to 100, and an
out-of-range latitude of 200 is passed straight through to the query. -/
theorem getFilteredRoute_never_validates_counterexample :
    (buildFilteredQueryFilters { limit := 150 }).limit = 100 ∧
    getFilteredRoute farDist (fun _ => none) ⟨[], []⟩ { limit := 150 } =
      .ok [] ∧
    (buildFilteredQueryFilters
      { latitude := some 200, longitude := some 300,
        radius := 500 }).radius = 100 ∧
    (buildFilteredQueryFilters
      { latitude := some 200, longitude := some 300,
        radius := 500 }).latitude = some 200 ∧
    getFilteredRoute farDist (fun _ => none) ⟨[], []⟩
      { latitude := some 200, longitude := some 300, radius := 500 } =
      .ok [] := by
  refine ⟨rfl, ?_, ?_, rfl, ?_⟩
  · norm_num [getFilteredRoute, getSpotsFiltered, buildFilteredQueryFilters,
      effectiveTransportModes, sortByKey, List.filter]
  · norm_num [buildFilteredQueryFilters, min_def]
  · norm_num [getFilteredRoute, getSpotsFiltered, buildFilteredQueryFilters,
      effectiveTransportModes, coordsTruthy, numTruthy, sortByKey,
      List.filter]

/-- C8 (amended): `findSpots` via `GET /filtered` clamps instead of
rejecting: the effective limit is `Math.min(limit, 100)`, the handler
itself never returns an error, and when both coordinates are supplied the
latitude is passed through unvalidated while the radius becomes
`Math.min(radius, 100)` (a non-positive radius is also passed through).
The rejection behavior the spec describes exists only on the `GET /`
(limit) and `GET /nearby` (coordinates, radius) endpoints. -/
theorem getFilteredRoute_clamps (q : FilteredQuery) :
    (buildFilteredQueryFilters q).limit = min q.limit 100 ∧
    (∀ (dist : ℚ × ℚ → ℚ × ℚ → ℚ) (profiles : Nat → Option UserProfile)
      (store : SpotStore),
      errStatus (getFilteredRoute dist profiles store q) = none) ∧
    (∀ a b, q.latitude = some a → q.longitude = some b →
      (buildFilteredQueryFilters q).latitude = some a ∧
      (buildFilteredQueryFilters q).radius = min q.radius 100) := by
  refine ⟨rfl, fun _ _ _ => rfl, ?_⟩
  intro a b ha hb
  unfold buildFilteredQueryFilters
  rw [ha, hb]
  simp

/-- Witness for `getFilteredRoute_clamps`: a concrete query with
`limit = 120`, `radius = 200` and latitude 91 yields a clamped limit and
radius, an unvalidated latitude, and no error. -/
theorem getFilteredRoute_clamps_witness :
    (buildFilteredQueryFilters
      { latitude := some 91, longitude := some 5, radius := 200,
        limit := 120 }).limit = min 120 100 ∧
    errStatus (getFilteredRoute farDist (fun _ => none) ⟨[], []⟩
      { latitude := some 91, longitude := some 5, radius := 200,
        limit := 120 }) = none ∧
    (buildFilteredQueryFilters
      { latitude := some 91, longitude := some 5, radius := 200,
        limit := 120 }).latitude = some 91 ∧
    (buildFilteredQueryFilters
      { latitude := some 91, longitude := some 5, radius := 200,
        limit := 120 }).radius = min 200 100 := by
  have h := getFilteredRoute_clamps
    { latitude := some 91, longitude := some 5, radius := 200,
      limit := 120 }
  obtain ⟨hl, hr⟩ := h.2.2 91 5 rfl rfl
  exact ⟨h.1, h.2.1 farDist (fun _ => none) ⟨[], []⟩, hl, hr⟩

/-- `UserProfileService.awardBadge`: looks up an existing badge by
`(user_id, badge_key)` and inserts only when absent.  The state is the
user's list of badge keys; name, emoji, category, level and sort order
ride along with the key and do not affect control flow. -/
def awardBadge (keys : List String) (key : String) : List String :=
  if key ∈ keys then keys else keys ++ [key]

/-- `checkReviewerBadges`: thresholds on `helpful_reviews`. -/
def reviewerBadgeTable : List (Nat × String) :=
  [(1, "first_reviewer"), (5, "helpful_reviewer_bronze"),
   (15, "helpful_reviewer_silver"), (50, "helpful_reviewer_gold")]

/-- `checkContributorBadges`: thresholds on `spots_added`. -/
def contributorBadgeTable : List (Nat × String) :=
  [(1, "first_spot"), (5, "spot_contributor_bronze"),
   (15, "spot_contributor_silver"), (50, "spot_contributor_gold")]

/-- `checkExplorerBadges`: thresholds on `countries_visited.length`. -/
def countryBadgeTable : List (Nat × String) :=
  [(3, "country_explorer_bronze"), (10, "country_explorer_silver"),
   (25, "country_explorer_gold")]

/-- The `for (const badge of badges) if (counter >= badge.threshold)` loop
shared by the reviewer/contributor/country badge families: the keys of all
table entries whose threshold is met. -/
def thresholdKeys (n : Nat) (table : List (Nat × String)) : List String :=
  (table.filter (fun e => decide (e.1 ≤ n))).map Prod.snd

/-- `checkTrustBadges`: one badge per set verification flag. -/
def trustBadgeKeys (p : UserProfile) : List String :=
  (if p.email_verified then ["email_verified"] else []) ++
  (if p.phone_verified then ["phone_verified"] else []) ++
  (if p.social_connected then ["social_connected"] else [])

/-- `checkReviewerBadges`: every tier whose threshold is met. -/
def reviewerBadgeKeys (p : UserProfile) : List String :=
  thresholdKeys p.helpful_reviews reviewerBadgeTable

/-- `checkContributorBadges`: spot tiers plus the verified-spots badge. -/
def contributorBadgeKeys (p : UserProfile) : List String :=
  thresholdKeys p.spots_added contributorBadgeTable ++
  (if 3 ≤ p.verified_spots then ["verified_contributor"] else [])

/-- `checkExplorerBadges`: country tiers, multi-modal and polyglot. -/
def explorerBadgeKeys (p : UserProfile) : List String :=
  thresholdKeys p.countries_visited.length countryBadgeTable ++
  (if 3 ≤ p.travel_modes.length then ["multimodal_master"] else []) ++
  (if 3 ≤ p.languages.length then ["polyglot"] else [])

/-- `checkCommunityBadges`: veteran membership and community vouches. -/
def communityBadgeKeys (p : UserProfile) (now : ℚ) : List String :=
  (if 365 ≤ membershipDays p now then ["veteran_member"] else []) ++
  (if 5 ≤ p.community_vouches then ["trusted_by_community"] else [])

/-- All badge keys whose condition a profile meets, in the order
`checkAndAwardBadges` evaluates the five families. -/
def allBadgeKeys (p : UserProfile) (now : ℚ) : List String :=
  trustBadgeKeys p ++ reviewerBadgeKeys p ++ contributorBadgeKeys p ++
  explorerBadgeKeys p ++ communityBadgeKeys p now

/-- `UserProfileService.checkAndAwardBadges`: award each met badge through
`awardBadge` over the user's current badge-key state. -/
def checkAndAwardBadges (p : UserProfile) (now : ℚ)
    (keys : List String) : List String :=
  (allBadgeKeys p now).foldl awardBadge keys

lemma mem_awardBadge (keys : List String) (key a : String) :
    a ∈ awardBadge keys key ↔ a ∈ keys ∨ a = key := by
  unfold awardBadge
  split
  · rename_i hmem
    constructor
    · exact Or.inl
    · rintro (h | h)
      · exact h
      · rw [h]; exact hmem
  · simp

lemma awardBadge_of_mem {keys : List String} {key : String}
    (h : key ∈ keys) : awardBadge keys key = keys := by
  unfold awardBadge
  rw [if_pos h]

lemma mem_foldl_awardBadge (l keys : List String) (a : String) :
    a ∈ l.foldl awardBadge keys ↔ a ∈ keys ∨ a ∈ l := by
  induction l generalizing keys with
  | nil => simp
  | cons x xs ih =>
      rw [List.foldl_cons, ih, mem_awardBadge]
      simp
      tauto

lemma foldl_awardBadge_of_subset {l keys : List String}
    (h : ∀ k ∈ l, k ∈ keys) : l.foldl awardBadge keys = keys := by
  induction l with
  | nil => rfl
  | cons x xs ih =>
      rw [List.foldl_cons, awardBadge_of_mem (h x (by simp))]
      exact ih (fun k hk => h k (by simp [hk]))

lemma nodup_awardBadge {keys : List String} (key : String)
    (h : keys.Nodup) : (awardBadge keys key).Nodup := by
  unfold awardBadge
  split
  · exact h
  · rename_i hni
    rw [List.nodup_append]
    exact ⟨h, List.nodup_singleton key, by simpa using hni⟩

lemma nodup_foldl_awardBadge (l : List String) {keys : List String}
    (h : keys.Nodup) : (l.foldl awardBadge keys).Nodup := by
  induction l generalizing keys with
  | nil => exact h
  | cons x xs ih => exact ih (nodup_awardBadge x h)

/-- C7: badge evaluation is idempotent and badges are permanent:
re-running `checkAndAwardBadges` with the same profile changes nothing;
every previously held badge key is retained; a duplicate-free badge table
stays duplicate-free (a key is awarded only if not already present); every
tier of the reviewer family whose threshold is met is awarded as its own
key; and a rerun against any profile meeting at most the same conditions
(in particular a regressed one) also awards nothing new. -/
theorem checkAndAwardBadges_idempotent_permanent (p : UserProfile) (now : ℚ)
    (keys : List String) (p' : UserProfile) (now' : ℚ) :
    checkAndAwardBadges p now (checkAndAwardBadges p now keys) =
      checkAndAwardBadges p now keys ∧
    (∀ k ∈ keys, k ∈ checkAndAwardBadges p now keys) ∧
    (keys.Nodup → (checkAndAwardBadges p now keys).Nodup) ∧
    (∀ t k, (t, k) ∈ reviewerBadgeTable → t ≤ p.helpful_reviews →
      k ∈ checkAndAwardBadges p now keys) ∧
    ((∀ k ∈ allBadgeKeys p' now', k ∈ allBadgeKeys p now) →
      checkAndAwardBadges p' now' (checkAndAwardBadges p now keys) =
        checkAndAwardBadges p now keys) := by
  refine ⟨?_, ?_, ?_, ?_, ?_⟩
  · unfold checkAndAwardBadges
    apply foldl_awardBadge_of_subset
    intro k hk
    rw [mem_foldl_awardBadge]
    exact Or.inr hk
  · intro k hk
    unfold checkAndAwardBadges
    rw [mem_foldl_awardBadge]
    exact Or.inl hk
  · intro h
    exact nodup_foldl_awardBadge _ h
  · intro t k htab hth
    unfold checkAndAwardBadges
    rw [mem_foldl_awardBadge]
    refine Or.inr ?_
    unfold allBadgeKeys
    have hk : k ∈ reviewerBadgeKeys p := by
      unfold reviewerBadgeKeys thresholdKeys
      apply List.mem_map.mpr
      exact ⟨(t, k), List.mem_filter.mpr ⟨htab, by simpa using hth⟩, rfl⟩
    simp only [List.mem_append]
    tauto
  · intro hsub
    unfold checkAndAwardBadges
    apply foldl_awardBadge_of_subset
    intro k hk
    rw [mem_foldl_awardBadge]
    exact Or.inr (hsub k hk)

/-- Witness for `checkAndAwardBadges_idempotent_permanent`: a profile with
five helpful reviews gets both `first_reviewer` and
`helpful_reviewer_bronze` (cumulative tiers), keeps a pre-existing badge,
and a second run changes nothing. -/
theorem checkAndAwardBadges_idempotent_permanent_witness :
    checkAndAwardBadges
      { travel_modes := [.walking], primary_mode := .walking,
        safety_priority := .low, email_verified := false,
        phone_verified := false, social_connected := false,
        community_vouches := 0, total_reviews := 5, helpful_reviews := 5,
        reviewer_rating := 1, spots_added := 0, verified_spots := 0,
        languages := [], countries_visited := [], show_all_spots := false,
        created_at := 0 } 0
      (checkAndAwardBadges
        { travel_modes := [.walking], primary_mode := .walking,
          safety_priority := .low, email_verified := false,
          phone_verified := false, social_connected := false,
          community_vouches := 0, total_reviews := 5, helpful_reviews := 5,
          reviewer_rating := 1, spots_added := 0, verified_spots := 0,
          languages := [], countries_visited := [], show_all_spots := false,
          created_at := 0 } 0 ["legacy_badge"]) =
      checkAndAwardBadges
        { travel_modes := [.walking], primary_mode := .walking,
          safety_priority := .low, email_verified := false,
          phone_verified := false, social_connected := false,
          community_vouches := 0, total_reviews := 5, helpful_reviews := 5,
          reviewer_rating := 1, spots_added := 0, verified_spots := 0,
          languages := [], countries_visited := [], show_all_spots := false,
          created_at := 0 } 0 ["legacy_badge"] ∧
    "legacy_badge" ∈ checkAndAwardBadges
      { travel_modes := [.walking], primary_mode := .walking,
        safety_priority := .low, email_verified := false,
        phone_verified := false, social_connected := false,
        community_vouches := 0, total_reviews := 5, helpful_reviews := 5,
        reviewer_rating := 1, spots_added := 0, verified_spots := 0,
        languages := [], countries_visited := [], show_all_spots := false,
        created_at := 0 } 0 ["legacy_badge"] ∧
    "first_reviewer" ∈ checkAndAwardBadges
      { travel_modes := [.walking], primary_mode := .walking,
        safety_priority := .low, email_verified := false,
        phone_verified := false, social_connected := false,
        community_vouches := 0, total_reviews := 5, helpful_reviews := 5,
        reviewer_rating := 1, spots_added := 0, verified_spots := 0,
        languages := [], countries_visited := [], show_all_spots := false,
        created_at := 0 } 0 ["legacy_badge"] ∧
    "helpful_reviewer_bronze" ∈ checkAndAwardBadges
      { travel_modes := [.walking], primary_mode := .walking,
        safety_priority := .low, email_verified := false,
        phone_verified := false, social_connected := false,
        community_vouches := 0, total_reviews := 5, helpful_reviews := 5,
        reviewer_rating := 1, spots_added := 0, verified_spots := 0,
        languages := [], countries_visited := [], show_all_spots := false,
        created_at := 0 } 0 ["legacy_badge"] := by
  have h := checkAndAwardBadges_idempotent_permanent
    { travel_modes := [.walking], primary_mode := .walking,
      safety_priority := .low, email_verified := false,
      phone_verified := false, social_connected := false,
      community_vouches := 0, total_reviews := 5, helpful_reviews := 5,
      reviewer_rating := 1, spots_added := 0, verified_spots := 0,
      languages := [], countries_visited := [], show_all_spots := false,
      created_at := 0 } 0 ["legacy_badge"]
    { travel_modes := [.walking], primary_mode := .walking,
      safety_priority := .low, email_verified := false,
      phone_verified := false, social_connected := false,
      community_vouches := 0, total_reviews := 5, helpful_reviews := 5,
      reviewer_rating := 1, spots_added := 0, verified_spots := 0,
      languages := [], countries_visited := [], show_all_spots := false,
      created_at := 0 } 0
  exact ⟨h.1, h.2.1 "legacy_badge" (by simp),
    h.2.2.2.1 1 "first_reviewer" (by simp [reviewerBadgeTable])
      (by norm_num),
    h.2.2.2.1 5 "helpful_reviewer_bronze" (by simp [reviewerBadgeTable])
      (by norm_num)⟩
